import Mathlib

/-!
# geom: 2D affine and 3D homogeneous transform matrices

A shallow embedding of `matrix.go` and of the points and rectangles of `rect.go`.

* `float64` entries are read as elements of a field `α` (the theorems take `α = ℝ`).
  Division is the division of the field: it is the quotient the code computes (up to
  rounding) when the divisor is not zero; with a zero divisor the code has `±Inf` or `NaN`,
  which a field does not have, and no theorem of the section Claims states an entry computed
  with a zero divisor.  Whether a function returns at all does not depend on the arithmetic: `Frustum3d`
  and the 4x4 `Transpose` are therefore written for any scalar type that has the operations
  they use, `float64` with its own division included.
* Go fixed-size arrays `[2]T`, `[3]T`, `[4]T` are the structures `Arr2`, `Arr3`, `Arr4`.
  An index expression with a constant index is checked by the Go compiler and is a field
  access here; an index expression with a loop variable is bounds-checked at run time and is
  `get?` / `set?` here, `none` being the run-time panic "index out of range".
* `for i := range a` over an array of length `n` is `forRange n`, the loop variable running
  over `0, 1, ..., n-1`.
-/

namespace GeomModel

/-! ## Fixed-size arrays -/

/-- Go array `[2]T`. -/
structure Arr2 (α : Type) where
  e0 : α
  e1 : α
deriving DecidableEq, Repr

/-- Go array `[3]T`. -/
structure Arr3 (α : Type) where
  e0 : α
  e1 : α
  e2 : α
deriving DecidableEq, Repr

/-- Go array `[4]T`. -/
structure Arr4 (α : Type) where
  e0 : α
  e1 : α
  e2 : α
  e3 : α
deriving DecidableEq, Repr

/-- Bounds-checked read `a[i]` of a `[2]T`. -/
def Arr2.get? {α : Type} (a : Arr2 α) : Nat → Option α
  | 0 => some a.e0
  | 1 => some a.e1
  | _ => none

/-- Bounds-checked write `a[i] = v` of a `[2]T`. -/
def Arr2.set? {α : Type} (a : Arr2 α) : Nat → α → Option (Arr2 α)
  | 0, v => some { a with e0 := v }
  | 1, v => some { a with e1 := v }
  | _, _ => none

/-- Bounds-checked read `a[i]` of a `[3]T`. -/
def Arr3.get? {α : Type} (a : Arr3 α) : Nat → Option α
  | 0 => some a.e0
  | 1 => some a.e1
  | 2 => some a.e2
  | _ => none

/-- Bounds-checked write `a[i] = v` of a `[3]T`. -/
def Arr3.set? {α : Type} (a : Arr3 α) : Nat → α → Option (Arr3 α)
  | 0, v => some { a with e0 := v }
  | 1, v => some { a with e1 := v }
  | 2, v => some { a with e2 := v }
  | _, _ => none

/-- Bounds-checked read `a[i]` of a `[4]T`. -/
def Arr4.get? {α : Type} (a : Arr4 α) : Nat → Option α
  | 0 => some a.e0
  | 1 => some a.e1
  | 2 => some a.e2
  | 3 => some a.e3
  | _ => none

/-- Bounds-checked write `a[i] = v` of a `[4]T`. -/
def Arr4.set? {α : Type} (a : Arr4 α) : Nat → α → Option (Arr4 α)
  | 0, v => some { a with e0 := v }
  | 1, v => some { a with e1 := v }
  | 2, v => some { a with e2 := v }
  | 3, v => some { a with e3 := v }
  | _, _ => none

/-- The loop `for i := range a` over an array of length `n`, threading the state `s`. -/
def forRange {σ : Type} (n : Nat) (init : σ) (body : Nat → σ → Option σ) : Option σ :=
  (List.range n).foldlM (fun s i => body i s) init

/-! ## `type Geom [3][2]float64` -/

/-- Source `type Geom [3][2]float64`: three rows of two entries. -/
abbrev Geom (α : Type) := Arr3 (Arr2 α)

/-- Literal `Geom{{a, b}, {c, d}, {e, f}}`. -/
def Geom.rows {α : Type} (a b c d e f : α) : Geom α := ⟨⟨a, b⟩, ⟨c, d⟩, ⟨e, f⟩⟩

/-- The zero value of `Geom`. -/
def Geom.zero {α : Type} [Field α] : Geom α := Geom.rows 0 0 0 0 0 0

/-- Read `g[i][j]` with both indices bounds-checked. -/
def Geom.at? {α : Type} (g : Geom α) (i j : Nat) : Option α := do
  let r ← Arr3.get? g i
  Arr2.get? r j

/-- Write `g[i][j] = v` with both indices bounds-checked. -/
def Geom.upd? {α : Type} (g : Geom α) (i j : Nat) (v : α) : Option (Geom α) := do
  let r ← Arr3.get? g i
  let r' ← Arr2.set? r j v
  Arr3.set? g i r'

/-- Source `func (g Geom) Mul(b Geom) (c Geom)`: `i` ranges over the 3 rows of `g`, `j` over the
2 entries of `b[0]`, `k` over the 2 entries of `g[0]`; the body is
`c[i][j] += g[i][k] * b[k][j]`. -/
def Geom.Mul {α : Type} [Field α] (g b : Geom α) : Option (Geom α) :=
  forRange 3 Geom.zero fun i c =>
    forRange 2 c fun j c =>
      forRange 2 c fun k c => do
        let x ← Geom.at? g i k
        let y ← Geom.at? b k j
        let o ← Geom.at? c i j
        Geom.upd? c i j (o + x * y)

/-- Source `func (g Geom) Transpose() (b Geom)`: `i` ranges over the 3 rows of `g`, `j` over the
2 entries of `g[0]`; the body is `b[j][i] = g[i][j]`. -/
def Geom.Transpose {α : Type} [Field α] (g : Geom α) : Option (Geom α) :=
  forRange 3 Geom.zero fun i b =>
    forRange 2 b fun j b => do
      let v ← Geom.at? g i j
      Geom.upd? b j i v

/-- Source `func (g Geom) Inverse() (b Geom)`: the cofactors of the completed 3x3 matrix (with
`c, f, i := 0.0, 0.0, 1.0`), then every entry divided by `det` in a loop over `b`. -/
def Geom.Inverse {α : Type} [Field α] (g : Geom α) : Option (Geom α) :=
  let a := g.e0.e0
  let bb := g.e0.e1
  let c : α := 0
  let d := g.e1.e0
  let e := g.e1.e1
  let f : α := 0
  let gg := g.e2.e0
  let h := g.e2.e1
  let i : α := 1
  let b : Geom α := Geom.rows
    (e * i - f * h) (-(bb * i - c * h))
    (-(d * i - f * gg)) (a * i - c * gg)
    (d * h - e * gg) (-(a * h - bb * gg))
  let det := g.e0.e0 * b.e0.e0 + g.e0.e1 * b.e1.e0 + 0 * b.e2.e0
  forRange 3 b fun i b =>
    forRange 2 b fun j b => do
      let o ← Geom.at? b i j
      Geom.upd? b i j (o / det)

/-- Source `func (g Geom) Apply(vec [3]float64) (o [3]float64)`: `i` ranges over the 3 rows of `g`,
`j` over the 3 entries of `vec`; the body is `o[i] += g[j][i] * vec[j]`. -/
def Geom.Apply {α : Type} [Field α] (g : Geom α) (vec : Arr3 α) : Option (Arr3 α) :=
  forRange 3 (⟨0, 0, 0⟩ : Arr3 α) fun i o =>
    forRange 3 o fun j o => do
      let m ← Geom.at? g j i
      let v ← Arr3.get? vec j
      let cur ← Arr3.get? o i
      Arr3.set? o i (cur + m * v)

/-- Source `type Point struct { X, Y float64 }` of `rect.go`. -/
structure Point (α : Type) where
  X : α
  Y : α
deriving DecidableEq, Repr

/-- Source `func Pt(x, y float64) Point`. -/
def Pt {α : Type} (x y : α) : Point α := { X := x, Y := y }

/-- Source `func (g Geom) ApplyPt(p Point) Point`. -/
def Geom.ApplyPt {α : Type} [Field α] (g : Geom α) (p : Point α) : Option (Point α) := do
  let v ← Geom.Apply g ⟨p.X, p.Y, 1⟩
  pure (Pt v.e0 v.e1)

/-- Source `func Identity2d() (g Geom)`: `i` ranges over the 3 rows of `g`; the body is
`g[i][i] = 1`. -/
def Identity2d {α : Type} [Field α] : Option (Geom α) :=
  forRange 3 Geom.zero fun i g => Geom.upd? g i i 1

/-- Source `func Scale2d(x, y float64) (p Geom)`: constant indices only. -/
def Scale2d {α : Type} [Field α] (x y : α) : Geom α :=
  let p : Geom α := Geom.zero
  let p : Geom α := { p with e0 := { p.e0 with e0 := x } }
  let p : Geom α := { p with e1 := { p.e1 with e1 := y } }
  p

/-- Source `func Translate2d(x, y float64) Geom`. -/
def Translate2d {α : Type} [Field α] (x y : α) : Option (Geom α) := do
  let p ← Identity2d
  let p : Geom α := { p with e2 := { p.e2 with e0 := x } }
  let p : Geom α := { p with e2 := { p.e2 with e1 := y } }
  pure p

/-- Source `func Rotate2d(theta float64) (p Geom)`; `math.Sin` and `math.Cos` are the parameters
`sin` and `cos`. -/
def Rotate2d {α : Type} [Field α] (sin cos : α → α) (theta : α) : Geom α :=
  let p : Geom α := Geom.zero
  let p : Geom α := { p with e0 := { p.e0 with e0 := cos theta } }
  let p : Geom α := { p with e0 := { p.e0 with e1 := sin theta } }
  let p : Geom α := { p with e1 := { p.e1 with e0 := -sin theta } }
  let p : Geom α := { p with e1 := { p.e1 with e1 := cos theta } }
  p

/-- Source `func Shear2d(x, y float64) (p Geom)`. -/
def Shear2d {α : Type} [Field α] (x y : α) : Option (Geom α) := do
  let p ← Identity2d
  let p : Geom α := { p with e0 := { p.e0 with e1 := y } }
  let p : Geom α := { p with e1 := { p.e1 with e0 := x } }
  pure p

/-- Source `func (g Geom) Scale(x, y float64) Geom`. -/
def Geom.Scale {α : Type} [Field α] (g : Geom α) (x y : α) : Option (Geom α) :=
  Geom.Mul g (Scale2d x y)

/-- Source `func (g Geom) Translate(x, y float64) Geom`: the argument `Translate2d(x, y)` is
evaluated before the call of `Mul`. -/
def Geom.Translate {α : Type} [Field α] (g : Geom α) (x y : α) : Option (Geom α) := do
  let t ← Translate2d x y
  Geom.Mul g t

/-- Source `func (g Geom) Rotate(theta float64) Geom`. -/
def Geom.Rotate {α : Type} [Field α] (sin cos : α → α) (g : Geom α) (theta : α) :
    Option (Geom α) :=
  Geom.Mul g (Rotate2d sin cos theta)

/-- Source `func (g Geom) Shear(x, y float64) Geom`. -/
def Geom.Shear {α : Type} [Field α] (g : Geom α) (x y : α) : Option (Geom α) := do
  let s ← Shear2d x y
  Geom.Mul g s

/-- Source `func Window2d(w, h int) Geom`: `Scale2d(2/float64(w), -2/float64(h)).Translate(-1, 1)`. -/
def Window2d {α : Type} [Field α] (w h : Int) : Option (Geom α) :=
  Geom.Translate (Scale2d (2 / (w : α)) (-2 / (h : α))) (-1) 1

/-! ## `type Geom3d [4][4]float64` -/

/-- Source `type Geom3d [4][4]float64`: four rows of four entries. -/
abbrev Geom3d (α : Type) := Arr4 (Arr4 α)

/-- The zero value of `Geom3d`. -/
def Geom3d.zero {α : Type} [Zero α] : Geom3d α :=
  ⟨⟨0, 0, 0, 0⟩, ⟨0, 0, 0, 0⟩, ⟨0, 0, 0, 0⟩, ⟨0, 0, 0, 0⟩⟩

/-- Read `g[i][j]` with both indices bounds-checked. -/
def Geom3d.at? {α : Type} (g : Geom3d α) (i j : Nat) : Option α := do
  let r ← Arr4.get? g i
  Arr4.get? r j

/-- Write `g[i][j] = v` with both indices bounds-checked. -/
def Geom3d.upd? {α : Type} (g : Geom3d α) (i j : Nat) (v : α) : Option (Geom3d α) := do
  let r ← Arr4.get? g i
  let r' ← Arr4.set? r j v
  Arr4.set? g i r'

/-- Source `func (g Geom) To3d() Geom3d`. -/
def Geom.To3d {α : Type} [Field α] (g : Geom α) : Geom3d α :=
  ⟨⟨g.e0.e0, g.e0.e1, 0, 0⟩,
   ⟨g.e1.e0, g.e1.e1, 0, 0⟩,
   ⟨g.e2.e0, g.e2.e1, 1, 0⟩,
   ⟨0, 0, 0, 1⟩⟩

/-- Source `func (g Geom3d) Mul(b Geom3d) (c Geom3d)`: `i`, `j`, `k` range over 4 indices; the body
is `c[i][j] += g[i][k] * b[k][j]`. -/
def Geom3d.Mul {α : Type} [Field α] (g b : Geom3d α) : Option (Geom3d α) :=
  forRange 4 Geom3d.zero fun i c =>
    forRange 4 c fun j c =>
      forRange 4 c fun k c => do
        let x ← Geom3d.at? g i k
        let y ← Geom3d.at? b k j
        let o ← Geom3d.at? c i j
        Geom3d.upd? c i j (o + x * y)

/-- Source `func (g Geom3d) Transpose() (b Geom3d)`: the body is `b[j][i] = g[i][j]`. -/
def Geom3d.Transpose {α : Type} [Zero α] (g : Geom3d α) : Option (Geom3d α) :=
  forRange 4 Geom3d.zero fun i b =>
    forRange 4 b fun j b => do
      let v ← Geom3d.at? g i j
      Geom3d.upd? b j i v

/-- Source `func (g Geom3d) Apply(vec [4]float64) (o [4]float64)`: the body is
`o[i] += g[i][j] * vec[j]`. -/
def Geom3d.Apply {α : Type} [Field α] (g : Geom3d α) (vec : Arr4 α) : Option (Arr4 α) :=
  forRange 4 (⟨0, 0, 0, 0⟩ : Arr4 α) fun i o =>
    forRange 4 o fun j o => do
      let m ← Geom3d.at? g i j
      let v ← Arr4.get? vec j
      let cur ← Arr4.get? o i
      Arr4.set? o i (cur + m * v)

/-- Source `func Identity3d() (g Geom3d)`: the body is `g[i][i] = 1` for `i` over the 4 rows. -/
def Identity3d {α : Type} [Field α] : Option (Geom3d α) :=
  forRange 4 Geom3d.zero fun i g => Geom3d.upd? g i i 1

/-- Source `func Scale3d(x, y, z float64) (p Geom3d)`: constant indices only. -/
def Scale3d {α : Type} [Field α] (x y z : α) : Geom3d α :=
  let p : Geom3d α := Geom3d.zero
  let p : Geom3d α := { p with e0 := { p.e0 with e0 := x } }
  let p : Geom3d α := { p with e1 := { p.e1 with e1 := y } }
  let p : Geom3d α := { p with e2 := { p.e2 with e2 := z } }
  let p : Geom3d α := { p with e3 := { p.e3 with e3 := 1 } }
  p

/-- Source `func Translate3d(x, y, z float64) Geom3d`. -/
def Translate3d {α : Type} [Field α] (x y z : α) : Option (Geom3d α) := do
  let p ← Identity3d
  let p : Geom3d α := { p with e3 := { p.e3 with e0 := x } }
  let p : Geom3d α := { p with e3 := { p.e3 with e1 := y } }
  let p : Geom3d α := { p with e3 := { p.e3 with e2 := z } }
  pure p

/-- Source `func Rotate3d(yaw, pitch, roll float64) (p Geom3d)`; `math.Sin` and `math.Cos` are the
parameters `sin` and `cos`. -/
def Rotate3d {α : Type} [Field α] (sin cos : α → α) (yaw pitch roll : α) : Geom3d α :=
  let φ := yaw
  let θ := pitch
  let ψ := roll
  let p : Geom3d α := Geom3d.zero
  let p : Geom3d α := { p with e3 := { p.e3 with e3 := 1 } }
  let p : Geom3d α := { p with e0 := { p.e0 with e0 := cos θ * cos ψ } }
  let p : Geom3d α := { p with e0 := { p.e0 with e1 := cos θ * sin ψ } }
  let p : Geom3d α := { p with e0 := { p.e0 with e2 := -sin θ } }
  let p : Geom3d α := { p with e1 := { p.e1 with e0 := sin φ * sin θ * cos ψ - cos φ * sin ψ } }
  let p : Geom3d α := { p with e1 := { p.e1 with e1 := sin φ * sin θ * sin ψ + cos φ * cos ψ } }
  let p : Geom3d α := { p with e1 := { p.e1 with e2 := sin φ * cos θ } }
  let p : Geom3d α := { p with e2 := { p.e2 with e0 := cos φ * sin θ * cos ψ + sin φ * sin ψ } }
  let p : Geom3d α := { p with e2 := { p.e2 with e1 := cos φ * sin θ * sin ψ - sin φ * cos ψ } }
  let p : Geom3d α := { p with e2 := { p.e2 with e2 := cos φ * cos θ } }
  p

/-- Source `func (g Geom3d) Scale(x, y, z float64) Geom3d`. -/
def Geom3d.Scale {α : Type} [Field α] (g : Geom3d α) (x y z : α) : Option (Geom3d α) :=
  Geom3d.Mul g (Scale3d x y z)

/-- Source `func (g Geom3d) Translate(x, y, z float64) Geom3d`. -/
def Geom3d.Translate {α : Type} [Field α] (g : Geom3d α) (x y z : α) : Option (Geom3d α) := do
  let t ← Translate3d x y z
  Geom3d.Mul g t

/-- Source `func (g Geom3d) Rotate(pitch, yaw, roll float64) Geom3d`: the body is
`g.Mul(Rotate3d(pitch, yaw, roll))`. -/
def Geom3d.Rotate {α : Type} [Field α] (sin cos : α → α) (g : Geom3d α) (pitch yaw roll : α) :
    Option (Geom3d α) :=
  Geom3d.Mul g (Rotate3d sin cos pitch yaw roll)

/-- Source `func Frustum3d(left, right, bottom, top, near, far float64) Geom3d`: the literal,
transposed.  The scalar type is any type with the operations of the literal; in a field the
entries are the ones of the code when `right - left`, `top - bottom` and `far - near` are not
zero. -/
def Frustum3d {α : Type} [Zero α] [One α] [OfNat α 2] [Add α] [Sub α] [Mul α] [Div α] [Neg α]
    (left right bottom top near far : α) : Option (Geom3d α) :=
  Geom3d.Transpose
    (⟨⟨2 * near / (right - left), 0, (right + left) / (right - left), 0⟩,
      ⟨0, 2 * near / (top - bottom), (top + bottom) / (top - bottom), 0⟩,
      ⟨0, 0, -(far + near) / (far - near), -2 * far * near / (far - near)⟩,
      ⟨0, 0, -1, 0⟩⟩ : Geom3d α)

/-- Source `func Perspective3d(fov, aspect, near, far float64) Geom3d`; `math.Tan` is the parameter
`tan`.  The entries are the ones of the code when `aspect`, `tan (fov / 2)` and `far - near`
are not zero. -/
def Perspective3d {α : Type} [Field α] (tan : α → α) (fov aspect near far : α) : Geom3d α :=
  let halftan := tan (fov / 2)
  ⟨⟨1 / aspect / halftan, 0, 0, 0⟩,
   ⟨0, 1 / halftan, 0, 0⟩,
   ⟨0, 0, far / (near - far), -1⟩,
   ⟨0, 0, -far * near / (far - near), 0⟩⟩

/-- Source `func Ortho3d(zoom, width, height, near, far float64) Geom3d`.  The entries are the
ones of the code when `zoom`, `width`, `height` and `far - near` are not zero. -/
def Ortho3d {α : Type} [Field α] (zoom width height near far : α) : Geom3d α :=
  let zoom := zoom * 2
  ⟨⟨1 / (width / zoom), 0, 0, 0⟩,
   ⟨0, 1 / (height / zoom), 0, 0⟩,
   ⟨0, 0, -2 / (far - near), 0⟩,
   ⟨0, 0, -(far + near) / (far - near), 1⟩⟩

/-! ## The matrices the stored blocks stand for -/

/-- The 3x3 matrix a `Geom` stands for: the stored 3x2 block completed by the elided last
column `(0, 0, 1)`, as `String` prints it. -/
def Geom.toMatrix {α : Type} [Field α] (g : Geom α) : Matrix (Fin 3) (Fin 3) α :=
  !![g.e0.e0, g.e0.e1, 0;
     g.e1.e0, g.e1.e1, 0;
     g.e2.e0, g.e2.e1, 1]

/-- The linear part of a `Geom`: rows 0 and 1. -/
def Geom.linear {α : Type} [Field α] (g : Geom α) : Matrix (Fin 2) (Fin 2) α :=
  !![g.e0.e0, g.e0.e1;
     g.e1.e0, g.e1.e1]

/-- The translation row of a `Geom`: row 2, as a row vector. -/
def Geom.translation {α : Type} [Field α] (g : Geom α) : Fin 2 → α :=
  ![g.e2.e0, g.e2.e1]

/-! ## `rect.go`: points and rectangles

The comparisons of `rect.go` need an order, so the entries are read in a linearly ordered
field; `math.Abs` is the absolute value and `math.Sqrt` is the parameter `sqrt`. -/

/-- Source `func (p Point) Mul(k float64) Point`. -/
def Point.Mul {α : Type} [LinearOrderedField α] (p : Point α) (k : α) : Point α :=
  { X := p.X * k, Y := p.Y * k }

/-- Source `func (p Point) Length() float64`: `math.Sqrt(p.X*p.X + p.Y*p.Y)`. -/
def Point.Length {α : Type} [LinearOrderedField α] (sqrt : α → α) (p : Point α) : α :=
  sqrt (p.X * p.X + p.Y * p.Y)

/-- Source `type Rectangle struct { Min, Max Point }`. -/
structure Rectangle (α : Type) where
  Min : Point α
  Max : Point α
deriving DecidableEq, Repr

/-- Source `func Rect(x0, y0, x1, y1 float64) Rectangle`. -/
def Rect {α : Type} (x0 y0 x1 y1 : α) : Rectangle α := { Min := Pt x0 y0, Max := Pt x1 y1 }

/-- The zero value `Rectangle{}`. -/
def Rectangle.zero {α : Type} [LinearOrderedField α] : Rectangle α :=
  { Min := { X := 0, Y := 0 }, Max := { X := 0, Y := 0 } }

/-- Source `func (p Point) In(r Rectangle) bool`. -/
def Point.In {α : Type} [LinearOrderedField α] (p : Point α) (r : Rectangle α) : Bool :=
  decide (r.Min.X ≤ p.X) && decide (p.X < r.Max.X) &&
    decide (r.Min.Y ≤ p.Y) && decide (p.Y < r.Max.Y)

/-- Source `func (r Rectangle) Sub(p Point) Rectangle`. -/
def Rectangle.Sub {α : Type} [LinearOrderedField α] (r : Rectangle α) (p : Point α) :
    Rectangle α :=
  { Min := { X := r.Min.X - p.X, Y := r.Min.Y - p.Y },
    Max := { X := r.Max.X - p.X, Y := r.Max.Y - p.Y } }

/-- Source `func (r Rectangle) Empty() bool`. -/
def Rectangle.Empty {α : Type} [LinearOrderedField α] (r : Rectangle α) : Bool :=
  decide (r.Min.X ≥ r.Max.X) || decide (r.Min.Y ≥ r.Max.Y)

/-- Source `func (r Rectangle) Intersect(s Rectangle) Rectangle`: four conditional
assignments to the copy `r`, then the zero rectangle if `r` is empty. -/
def Rectangle.Intersect {α : Type} [LinearOrderedField α] (r s : Rectangle α) : Rectangle α :=
  let r : Rectangle α :=
    if r.Min.X < s.Min.X then { r with Min := { r.Min with X := s.Min.X } } else r
  let r : Rectangle α :=
    if r.Min.Y < s.Min.Y then { r with Min := { r.Min with Y := s.Min.Y } } else r
  let r : Rectangle α :=
    if r.Max.X > s.Max.X then { r with Max := { r.Max with X := s.Max.X } } else r
  let r : Rectangle α :=
    if r.Max.Y > s.Max.Y then { r with Max := { r.Max with Y := s.Max.Y } } else r
  if Rectangle.Empty r then Rectangle.zero else r

/-- Source `func (r Rectangle) Overlaps(s Rectangle) bool`. -/
def Rectangle.Overlaps {α : Type} [LinearOrderedField α] (r s : Rectangle α) : Bool :=
  !Rectangle.Empty r && !Rectangle.Empty s &&
    decide (r.Min.X < s.Max.X) && decide (s.Min.X < r.Max.X) &&
    decide (r.Min.Y < s.Max.Y) && decide (s.Min.Y < r.Max.Y)

/-- Source `func (r Rectangle) Distance(at Point) float64`; the argument `at` is `pt` here and
the constant `0.5` is `1 / 2`. -/
def Rectangle.Distance {α : Type} [LinearOrderedField α] (sqrt : α → α) (r : Rectangle α)
    (pt : Point α) : α :=
  let r := Rectangle.Sub r pt
  let d : Point α := Pt (|r.Min.X + r.Max.X| - r.Max.X + r.Min.X)
    (|r.Min.Y + r.Max.Y| - r.Max.Y + r.Min.Y)
  let d : Point α := if d.X < 0 then { d with X := 0 } else d
  let d : Point α := if d.Y < 0 then { d with Y := 0 } else d
  Point.Length sqrt (Point.Mul d (1 / 2))

/-! ## Evaluation lemmas -/

theorem Geom.Mul_eval {α : Type} [Field α] (g b : Geom α) :
    Geom.Mul g b = some (Geom.rows
      (0 + g.e0.e0 * b.e0.e0 + g.e0.e1 * b.e1.e0) (0 + g.e0.e0 * b.e0.e1 + g.e0.e1 * b.e1.e1)
      (0 + g.e1.e0 * b.e0.e0 + g.e1.e1 * b.e1.e0) (0 + g.e1.e0 * b.e0.e1 + g.e1.e1 * b.e1.e1)
      (0 + g.e2.e0 * b.e0.e0 + g.e2.e1 * b.e1.e0) (0 + g.e2.e0 * b.e0.e1 + g.e2.e1 * b.e1.e1)) :=
  rfl


theorem Geom.Inverse_eval {α : Type} [Field α] (g : Geom α) :
    Geom.Inverse g = some (Geom.rows
      (g.e1.e1 / (g.e0.e0 * g.e1.e1 - g.e0.e1 * g.e1.e0))
      (-g.e0.e1 / (g.e0.e0 * g.e1.e1 - g.e0.e1 * g.e1.e0))
      (-g.e1.e0 / (g.e0.e0 * g.e1.e1 - g.e0.e1 * g.e1.e0))
      (g.e0.e0 / (g.e0.e0 * g.e1.e1 - g.e0.e1 * g.e1.e0))
      ((g.e1.e0 * g.e2.e1 - g.e1.e1 * g.e2.e0) / (g.e0.e0 * g.e1.e1 - g.e0.e1 * g.e1.e0))
      (-(g.e0.e0 * g.e2.e1 - g.e0.e1 * g.e2.e0) / (g.e0.e0 * g.e1.e1 - g.e0.e1 * g.e1.e0))) := by
  have raw : Geom.Inverse g = some (Geom.rows
      ((g.e1.e1 * 1 - 0 * g.e2.e1) / (g.e0.e0 * (g.e1.e1 * 1 - 0 * g.e2.e1)
        + g.e0.e1 * (-(g.e1.e0 * 1 - 0 * g.e2.e0)) + 0 * (g.e1.e0 * g.e2.e1 - g.e1.e1 * g.e2.e0)))
      (-(g.e0.e1 * 1 - 0 * g.e2.e1) / (g.e0.e0 * (g.e1.e1 * 1 - 0 * g.e2.e1)
        + g.e0.e1 * (-(g.e1.e0 * 1 - 0 * g.e2.e0)) + 0 * (g.e1.e0 * g.e2.e1 - g.e1.e1 * g.e2.e0)))
      (-(g.e1.e0 * 1 - 0 * g.e2.e0) / (g.e0.e0 * (g.e1.e1 * 1 - 0 * g.e2.e1)
        + g.e0.e1 * (-(g.e1.e0 * 1 - 0 * g.e2.e0)) + 0 * (g.e1.e0 * g.e2.e1 - g.e1.e1 * g.e2.e0)))
      ((g.e0.e0 * 1 - 0 * g.e2.e0) / (g.e0.e0 * (g.e1.e1 * 1 - 0 * g.e2.e1)
        + g.e0.e1 * (-(g.e1.e0 * 1 - 0 * g.e2.e0)) + 0 * (g.e1.e0 * g.e2.e1 - g.e1.e1 * g.e2.e0)))
      ((g.e1.e0 * g.e2.e1 - g.e1.e1 * g.e2.e0) / (g.e0.e0 * (g.e1.e1 * 1 - 0 * g.e2.e1)
        + g.e0.e1 * (-(g.e1.e0 * 1 - 0 * g.e2.e0)) + 0 * (g.e1.e0 * g.e2.e1 - g.e1.e1 * g.e2.e0)))
      (-(g.e0.e0 * g.e2.e1 - g.e0.e1 * g.e2.e0) / (g.e0.e0 * (g.e1.e1 * 1 - 0 * g.e2.e1)
        + g.e0.e1 * (-(g.e1.e0 * 1 - 0 * g.e2.e0)) + 0 * (g.e1.e0 * g.e2.e1 - g.e1.e1 * g.e2.e0)))) :=
    rfl
  have hdet : g.e0.e0 * (g.e1.e1 * 1 - 0 * g.e2.e1)
      + g.e0.e1 * (-(g.e1.e0 * 1 - 0 * g.e2.e0)) + 0 * (g.e1.e0 * g.e2.e1 - g.e1.e1 * g.e2.e0)
      = g.e0.e0 * g.e1.e1 - g.e0.e1 * g.e1.e0 := by ring
  rw [raw, hdet]
  simp only [mul_one, zero_mul, sub_zero]

theorem Geom.Apply_fails {α : Type} [Field α] (g : Geom α) (v : Arr3 α) :
    Geom.Apply g v = none := rfl

theorem Identity2d_fails {α : Type} [Field α] : (Identity2d : Option (Geom α)) = none := rfl

theorem Geom.Transpose_fails {α : Type} [Field α] (g : Geom α) : Geom.Transpose g = none := rfl

theorem Geom3d.Transpose3d_eval {α : Type} [Zero α] (g : Geom3d α) :
    Geom3d.Transpose g = some
      ⟨⟨g.e0.e0, g.e1.e0, g.e2.e0, g.e3.e0⟩, ⟨g.e0.e1, g.e1.e1, g.e2.e1, g.e3.e1⟩,
       ⟨g.e0.e2, g.e1.e2, g.e2.e2, g.e3.e2⟩, ⟨g.e0.e3, g.e1.e3, g.e2.e3, g.e3.e3⟩⟩ := rfl

theorem Identity3d_eval {α : Type} [Field α] :
    (Identity3d : Option (Geom3d α)) = some
      ⟨⟨1, 0, 0, 0⟩, ⟨0, 1, 0, 0⟩, ⟨0, 0, 1, 0⟩, ⟨0, 0, 0, 1⟩⟩ := rfl

theorem Geom3d.Apply3d_eval {α : Type} [Field α] (g : Geom3d α) (v : Arr4 α) :
    Geom3d.Apply g v = some
      ⟨0 + g.e0.e0 * v.e0 + g.e0.e1 * v.e1 + g.e0.e2 * v.e2 + g.e0.e3 * v.e3,
       0 + g.e1.e0 * v.e0 + g.e1.e1 * v.e1 + g.e1.e2 * v.e2 + g.e1.e3 * v.e3,
       0 + g.e2.e0 * v.e0 + g.e2.e1 * v.e1 + g.e2.e2 * v.e2 + g.e2.e3 * v.e3,
       0 + g.e3.e0 * v.e0 + g.e3.e1 * v.e1 + g.e3.e2 * v.e2 + g.e3.e3 * v.e3⟩ := rfl

theorem Translate3d_eval {α : Type} [Field α] (x y z : α) :
    Translate3d x y z = some ⟨⟨1, 0, 0, 0⟩, ⟨0, 1, 0, 0⟩, ⟨0, 0, 1, 0⟩, ⟨x, y, z, 1⟩⟩ := rfl

theorem Frustum3d_eval {α : Type} [Field α] (left right bottom top near far : α) :
    Frustum3d left right bottom top near far = some
      ⟨⟨2 * near / (right - left), 0, 0, 0⟩,
       ⟨0, 2 * near / (top - bottom), 0, 0⟩,
       ⟨(right + left) / (right - left), (top + bottom) / (top - bottom),
        -(far + near) / (far - near), -1⟩,
       ⟨0, 0, -2 * far * near / (far - near), 0⟩⟩ := rfl

theorem Geom3d.Mul3d_eval {α : Type} [Field α] (g b : Geom3d α) :
    Geom3d.Mul g b = some
      ⟨⟨0 + g.e0.e0 * b.e0.e0 + g.e0.e1 * b.e1.e0 + g.e0.e2 * b.e2.e0 + g.e0.e3 * b.e3.e0,
        0 + g.e0.e0 * b.e0.e1 + g.e0.e1 * b.e1.e1 + g.e0.e2 * b.e2.e1 + g.e0.e3 * b.e3.e1,
        0 + g.e0.e0 * b.e0.e2 + g.e0.e1 * b.e1.e2 + g.e0.e2 * b.e2.e2 + g.e0.e3 * b.e3.e2,
        0 + g.e0.e0 * b.e0.e3 + g.e0.e1 * b.e1.e3 + g.e0.e2 * b.e2.e3 + g.e0.e3 * b.e3.e3⟩,
       ⟨0 + g.e1.e0 * b.e0.e0 + g.e1.e1 * b.e1.e0 + g.e1.e2 * b.e2.e0 + g.e1.e3 * b.e3.e0,
        0 + g.e1.e0 * b.e0.e1 + g.e1.e1 * b.e1.e1 + g.e1.e2 * b.e2.e1 + g.e1.e3 * b.e3.e1,
        0 + g.e1.e0 * b.e0.e2 + g.e1.e1 * b.e1.e2 + g.e1.e2 * b.e2.e2 + g.e1.e3 * b.e3.e2,
        0 + g.e1.e0 * b.e0.e3 + g.e1.e1 * b.e1.e3 + g.e1.e2 * b.e2.e3 + g.e1.e3 * b.e3.e3⟩,
       ⟨0 + g.e2.e0 * b.e0.e0 + g.e2.e1 * b.e1.e0 + g.e2.e2 * b.e2.e0 + g.e2.e3 * b.e3.e0,
        0 + g.e2.e0 * b.e0.e1 + g.e2.e1 * b.e1.e1 + g.e2.e2 * b.e2.e1 + g.e2.e3 * b.e3.e1,
        0 + g.e2.e0 * b.e0.e2 + g.e2.e1 * b.e1.e2 + g.e2.e2 * b.e2.e2 + g.e2.e3 * b.e3.e2,
        0 + g.e2.e0 * b.e0.e3 + g.e2.e1 * b.e1.e3 + g.e2.e2 * b.e2.e3 + g.e2.e3 * b.e3.e3⟩,
       ⟨0 + g.e3.e0 * b.e0.e0 + g.e3.e1 * b.e1.e0 + g.e3.e2 * b.e2.e0 + g.e3.e3 * b.e3.e0,
        0 + g.e3.e0 * b.e0.e1 + g.e3.e1 * b.e1.e1 + g.e3.e2 * b.e2.e1 + g.e3.e3 * b.e3.e1,
        0 + g.e3.e0 * b.e0.e2 + g.e3.e1 * b.e1.e2 + g.e3.e2 * b.e2.e2 + g.e3.e3 * b.e3.e2,
        0 + g.e3.e0 * b.e0.e3 + g.e3.e1 * b.e1.e3 + g.e3.e2 * b.e2.e3 + g.e3.e3 * b.e3.e3⟩⟩ := rfl

/-- The four conditional assignments of `Intersect` compute the componentwise maximum of the
`Min` corners and minimum of the `Max` corners. -/
theorem Rectangle.Intersect_eval {α : Type} [LinearOrderedField α] (r s : Rectangle α) :
    Rectangle.Intersect r s =
      if Rectangle.Empty (Rect (max r.Min.X s.Min.X) (max r.Min.Y s.Min.Y)
          (min r.Max.X s.Max.X) (min r.Max.Y s.Max.Y)) = true
      then Rectangle.zero
      else Rect (max r.Min.X s.Min.X) (max r.Min.Y s.Min.Y)
          (min r.Max.X s.Max.X) (min r.Max.Y s.Max.Y) := by
  rcases r with ⟨⟨a, b⟩, ⟨c, d⟩⟩
  rcases s with ⟨⟨a', b'⟩, ⟨c', d'⟩⟩
  have hx : (if a < a' then a' else a) = max a a' := by
    split_ifs with h
    · exact (max_eq_right (le_of_lt h)).symm
    · exact (max_eq_left (le_of_not_lt h)).symm
  have hy : (if b < b' then b' else b) = max b b' := by
    split_ifs with h
    · exact (max_eq_right (le_of_lt h)).symm
    · exact (max_eq_left (le_of_not_lt h)).symm
  have hX : (if c' < c then c' else c) = min c c' := by
    split_ifs with h
    · exact (min_eq_right (le_of_lt h)).symm
    · exact (min_eq_left (le_of_not_lt h)).symm
  have hY : (if d' < d then d' else d) = min d d' := by
    split_ifs with h
    · exact (min_eq_right (le_of_lt h)).symm
    · exact (min_eq_left (le_of_not_lt h)).symm
  have key : Rectangle.Intersect ⟨⟨a, b⟩, ⟨c, d⟩⟩ ⟨⟨a', b'⟩, ⟨c', d'⟩⟩ =
      if Rectangle.Empty
          (⟨⟨if a < a' then a' else a, if b < b' then b' else b⟩,
            ⟨if c' < c then c' else c, if d' < d then d' else d⟩⟩ : Rectangle α) = true
      then Rectangle.zero
      else ⟨⟨if a < a' then a' else a, if b < b' then b' else b⟩,
            ⟨if c' < c then c' else c, if d' < d then d' else d⟩⟩ := by
    by_cases h1 : a < a' <;> by_cases h2 : b < b' <;> by_cases h3 : c' < c <;>
      by_cases h4 : d' < d <;>
      simp only [Rectangle.Intersect, h1, h2, h3, h4, gt_iff_lt, if_true, if_false]
  rw [key, hx, hy, hX, hY]
  rfl

/-! ## Claims -/

/-- C1 (defect of `Geom.Mul`): the claim asks that the product of the pure translations by
`(a, b)` and `(c, d)` be the translation by `(a + c, b + d)`.  The code sums only over
`k = 0, 1`, so the translation row of the right factor never enters the product: the result
is the left factor, the translation by `(a, b)`; at `(1, 2)` and `(3, 4)` it is the
translation by `(1, 2)`, not the one by `(4, 6)`. -/
theorem C1_Mul_translations_drops_right_translation :
    (∀ a b c d : ℝ,
      Geom.Mul (Geom.rows 1 0 0 1 a b) (Geom.rows 1 0 0 1 c d) = some (Geom.rows 1 0 0 1 a b))
    ∧ Geom.Mul (Geom.rows (1 : ℝ) 0 0 1 1 2) (Geom.rows 1 0 0 1 3 4)
        = some (Geom.rows 1 0 0 1 1 2)
    ∧ Geom.Mul (Geom.rows (1 : ℝ) 0 0 1 1 2) (Geom.rows 1 0 0 1 3 4)
        ≠ some (Geom.rows 1 0 0 1 4 6) := by
  have h : ∀ a b c d : ℝ,
      Geom.Mul (Geom.rows 1 0 0 1 a b) (Geom.rows 1 0 0 1 c d)
        = some (Geom.rows 1 0 0 1 a b) := by
    intro a b c d
    rw [Geom.Mul_eval]
    simp [Geom.rows]
  refine ⟨h, h 1 2 3 4, ?_⟩
  rw [h 1 2 3 4]
  simp [Geom.rows]

/-- C2 (defect of `Geom.Mul`): the claim asks for both identity laws.  The right identity law
`m.Mul(I) = m` holds for every `m`; the left one fails as soon as `m` has a non-zero
translation row, because row 2 of `I.Mul(m)` is computed without the implicit `1` of the
elided column: `I.Mul(m)` has the rows `m[0]`, `m[1]` and `(0, 0)`.  At
`m = rows (1,0),(0,1),(5,-5)` the product is the identity matrix, not `m`. -/
theorem C2_Mul_left_identity_drops_translation :
    (∀ m : Geom ℝ, Geom.Mul m (Geom.rows 1 0 0 1 0 0) = some m)
    ∧ (∀ m : Geom ℝ, Geom.Mul (Geom.rows 1 0 0 1 0 0) m
        = some (Geom.rows m.e0.e0 m.e0.e1 m.e1.e0 m.e1.e1 0 0))
    ∧ Geom.Mul (Geom.rows (1 : ℝ) 0 0 1 0 0) (Geom.rows 1 0 0 1 5 (-5))
        ≠ some (Geom.rows 1 0 0 1 5 (-5)) := by
  have hl : ∀ m : Geom ℝ, Geom.Mul (Geom.rows 1 0 0 1 0 0) m
      = some (Geom.rows m.e0.e0 m.e0.e1 m.e1.e0 m.e1.e1 0 0) := by
    intro m
    rw [Geom.Mul_eval]
    simp [Geom.rows]
  refine ⟨?_, hl, ?_⟩
  · intro m
    rw [Geom.Mul_eval]
    simp [Geom.rows]
  · rw [hl]
    simp [Geom.rows]

/-- C3 (defect of `Geom.Mul`): the claim asks that `m.Mul(m.Inverse())` be the identity for
every invertible `m`, whatever its translation row.  `Inverse` returns the true affine
inverse, but `Mul` leaves out the translation row of its right factor, so row 2 of the
product is `m[2]` times the inverse linear part instead of `(0, 0)`.  At the invertible
`m = rows (1,0),(0,1),(5,-5)` the inverse is `rows (1,0),(0,1),(-5,5)` and the product is
`m` again, not the identity. -/
theorem C3_Mul_Inverse_keeps_translation :
    (1 : ℝ) * 1 - 0 * 0 ≠ 0
    ∧ Geom.Inverse (Geom.rows (1 : ℝ) 0 0 1 5 (-5)) = some (Geom.rows 1 0 0 1 (-5) 5)
    ∧ (Geom.Inverse (Geom.rows (1 : ℝ) 0 0 1 5 (-5))).bind
        (fun b => Geom.Mul (Geom.rows 1 0 0 1 5 (-5)) b) = some (Geom.rows 1 0 0 1 5 (-5))
    ∧ (Geom.Inverse (Geom.rows (1 : ℝ) 0 0 1 5 (-5))).bind
        (fun b => Geom.Mul (Geom.rows 1 0 0 1 5 (-5)) b) ≠ some (Geom.rows 1 0 0 1 0 0) := by
  have hinv : Geom.Inverse (Geom.rows (1 : ℝ) 0 0 1 5 (-5))
      = some (Geom.rows 1 0 0 1 (-5) 5) := by
    rw [Geom.Inverse_eval]
    simp [Geom.rows]
  have hmul : (Geom.Inverse (Geom.rows (1 : ℝ) 0 0 1 5 (-5))).bind
      (fun b => Geom.Mul (Geom.rows 1 0 0 1 5 (-5)) b) = some (Geom.rows 1 0 0 1 5 (-5)) := by
    rw [hinv, Option.some_bind, Geom.Mul_eval]
    simp [Geom.rows]
  refine ⟨by norm_num, hinv, hmul, ?_⟩
  rw [hmul]
  simp [Geom.rows]

/-- C4 (defect of `Geom.Apply`): the claim asks that `g.ApplyPt(Pt(x, y))` return the image
`(x*g[0][0] + y*g[1][0] + g[2][0], x*g[0][1] + y*g[1][1] + g[2][1])`.  The outer loop of
`Apply` runs `i` over the 3 rows of `g` and uses `i` as the column index of `g[j][i]`, whose
rows have 2 entries: at `i = 2` the index is out of range, so `Apply`, and `ApplyPt` with it,
fails on every matrix and every vector; in particular for the two witnesses of the claim. -/
theorem C4_Apply_index_out_of_range :
    (∀ (g : Geom ℝ) (v : Arr3 ℝ), Geom.Apply g v = none)
    ∧ (∀ (g : Geom ℝ) (p : Point ℝ), Geom.ApplyPt g p = none)
    ∧ Geom.ApplyPt (Geom.rows (2 : ℝ) 0 0 3 0 0) (Pt 1 1) = none
    ∧ Geom.ApplyPt (Geom.rows (1 : ℝ) 0 0 1 5 (-5)) (Pt 0 0) = none :=
  ⟨fun _ _ => rfl, fun _ _ => rfl, rfl, rfl⟩

/-- C5 (defects of `Identity2d`, `Geom.Mul` and `Geom.Apply`): the claim asks that
`Window2d(w, h)` map `(0, 0)` to `(-1, 1)` and `(w, h)` to `(1, -1)`.  `Window2d` calls
`Translate`, which calls `Translate2d`, which calls `Identity2d`, and that fails with an index
out of range: `Window2d(w, h)` returns no matrix for any `w`, `h`, so neither point has an
image. -/
theorem C5_Window2d_fails :
    (∀ w h : Int, (Window2d w h : Option (Geom ℝ)) = none)
    ∧ (∀ w h : Int, (Window2d w h : Option (Geom ℝ)).bind
        (fun g => Geom.ApplyPt g (Pt 0 0)) = none)
    ∧ (∀ w h : Int, (Window2d w h : Option (Geom ℝ)).bind
        (fun g => Geom.ApplyPt g (Pt (w : ℝ) (h : ℝ))) = none) :=
  ⟨fun _ _ => rfl, fun _ _ => rfl, fun _ _ => rfl⟩

/-- C6 (defect of `Identity2d`): the claim asks that `Identity2d()` return the identity
matrix and that `Translate2d` and `Shear2d` return a matrix.  The loop of `Identity2d` runs
`i` over the 3 rows and writes `g[i][i]`; a row has 2 entries, so at `i = 2` the index is out
of range and `Identity2d` fails; `Translate2d` and `Shear2d` call it first and fail too. -/
theorem C6_Identity2d_index_out_of_range :
    (Identity2d : Option (Geom ℝ)) = none
    ∧ (∀ x y : ℝ, Translate2d x y = none)
    ∧ (∀ x y : ℝ, Shear2d x y = none) :=
  ⟨rfl, fun _ _ => rfl, fun _ _ => rfl⟩

/-- C7: for every `g` with `det = g[0][0]*g[1][1] - g[0][1]*g[1][0] ≠ 0`, `g.Inverse()`
returns a matrix `b` that is the inverse of `g` in the affine subgroup: completing both with
the last column `(0, 0, 1)`, the 3x3 products `g * b` and `b * g` are the 3x3 identity; the
linear part of `b` is the inverse of the linear part of `g`, and the translation row of `b`
is minus the translation row of `g` times that inverse. -/
theorem C7_Inverse_is_affine_inverse (g : Geom ℝ)
    (hdet : g.e0.e0 * g.e1.e1 - g.e0.e1 * g.e1.e0 ≠ 0) :
    ∃ b : Geom ℝ, Geom.Inverse g = some b
      ∧ Geom.toMatrix g * Geom.toMatrix b = 1
      ∧ Geom.toMatrix b * Geom.toMatrix g = 1
      ∧ Geom.linear g * Geom.linear b = 1
      ∧ Geom.linear b * Geom.linear g = 1
      ∧ Geom.translation b = -(Matrix.vecMul (Geom.translation g) (Geom.linear b)) := by
  refine ⟨_, Geom.Inverse_eval g, ?_, ?_, ?_, ?_, ?_⟩
  · ext i j
    fin_cases i <;> fin_cases j <;>
      simp [Geom.toMatrix, Geom.rows, Matrix.mul_apply, Fin.sum_univ_three] <;>
      field_simp <;> ring
  · ext i j
    fin_cases i <;> fin_cases j <;>
      simp [Geom.toMatrix, Geom.rows, Matrix.mul_apply, Fin.sum_univ_three] <;>
      field_simp <;> ring
  · ext i j
    fin_cases i <;> fin_cases j <;>
      simp [Geom.linear, Geom.rows, Matrix.mul_apply, Fin.sum_univ_two] <;>
      field_simp <;> ring
  · ext i j
    fin_cases i <;> fin_cases j <;>
      simp [Geom.linear, Geom.rows, Matrix.mul_apply, Fin.sum_univ_two] <;>
      field_simp <;> ring
  · ext i
    fin_cases i <;>
      simp [Geom.translation, Geom.linear, Geom.rows, Matrix.vecMul, Matrix.dotProduct,
        Fin.sum_univ_two] <;>
      field_simp <;> ring

/-- Witness of C7 at the scale-and-translate matrix `rows (2,0),(0,3),(5,-5)`. -/
theorem C7_Inverse_is_affine_inverse_witness :
    (2 : ℝ) * 3 - 0 * 0 ≠ 0
    ∧ ∃ b : Geom ℝ, Geom.Inverse (Geom.rows 2 0 0 3 5 (-5)) = some b
      ∧ Geom.toMatrix (Geom.rows 2 0 0 3 5 (-5)) * Geom.toMatrix b = 1
      ∧ Geom.toMatrix b * Geom.toMatrix (Geom.rows 2 0 0 3 5 (-5)) = 1
      ∧ Geom.linear (Geom.rows 2 0 0 3 5 (-5)) * Geom.linear b = 1
      ∧ Geom.linear b * Geom.linear (Geom.rows 2 0 0 3 5 (-5)) = 1
      ∧ Geom.translation b
          = -(Matrix.vecMul (Geom.translation (Geom.rows 2 0 0 3 5 (-5))) (Geom.linear b)) :=
  ⟨by norm_num,
   C7_Inverse_is_affine_inverse (Geom.rows 2 0 0 3 5 (-5))
     (by show (2 : ℝ) * 3 - 0 * 0 ≠ 0; norm_num)⟩

/-- C8 (defect of `Geom3d.Apply`): the claim asks that `Geom3d.Apply` be the
row-vector-times-matrix product, component `j` being `v[0]*g[0][j] + ... + v[3]*g[3][j]`, so
that `Translate3d(tx,ty,tz).Apply([x,y,z,1]) = [x+tx, y+ty, z+tz, 1]`.  The code accumulates
`g[i][j] * vec[j]` into `o[i]` (the 2D `Apply` reads `g[j][i]`): component `i` is
`g[i][0]*v[0] + ... + g[i][3]*v[3]`, the matrix-times-column-vector product.  A translation
matrix therefore leaves `x, y, z` alone and changes the fourth component;
`Translate3d(1,2,3).Apply([0,0,0,1])` is `[0,0,0,1]`, not `[1,2,3,1]`. -/
theorem C8_Apply3d_is_matrix_times_column :
    (∀ (g : Geom3d ℝ) (v : Arr4 ℝ), Geom3d.Apply g v = some
      ⟨g.e0.e0 * v.e0 + g.e0.e1 * v.e1 + g.e0.e2 * v.e2 + g.e0.e3 * v.e3,
       g.e1.e0 * v.e0 + g.e1.e1 * v.e1 + g.e1.e2 * v.e2 + g.e1.e3 * v.e3,
       g.e2.e0 * v.e0 + g.e2.e1 * v.e1 + g.e2.e2 * v.e2 + g.e2.e3 * v.e3,
       g.e3.e0 * v.e0 + g.e3.e1 * v.e1 + g.e3.e2 * v.e2 + g.e3.e3 * v.e3⟩)
    ∧ (∀ tx ty tz x y z : ℝ,
        (Translate3d tx ty tz).bind (fun m => Geom3d.Apply m ⟨x, y, z, 1⟩)
          = some ⟨x, y, z, tx * x + ty * y + tz * z + 1⟩)
    ∧ (Translate3d (1 : ℝ) 2 3).bind (fun m => Geom3d.Apply m ⟨0, 0, 0, 1⟩)
        = some ⟨0, 0, 0, 1⟩
    ∧ (Translate3d (1 : ℝ) 2 3).bind (fun m => Geom3d.Apply m ⟨0, 0, 0, 1⟩)
        ≠ some ⟨0 + 1, 0 + 2, 0 + 3, 1⟩ := by
  have hT : ∀ tx ty tz x y z : ℝ,
      (Translate3d tx ty tz).bind (fun m => Geom3d.Apply m ⟨x, y, z, 1⟩)
        = some ⟨x, y, z, tx * x + ty * y + tz * z + 1⟩ := by
    intro tx ty tz x y z
    rw [Translate3d_eval, Option.some_bind, Geom3d.Apply3d_eval]
    simp
  have h0 : (Translate3d (1 : ℝ) 2 3).bind (fun m => Geom3d.Apply m ⟨0, 0, 0, 1⟩)
      = some ⟨0, 0, 0, 1⟩ := by
    rw [hT]
    simp
  refine ⟨?_, hT, h0, ?_⟩
  · intro g v
    rw [Geom3d.Apply3d_eval]
    simp
  · rw [h0]
    simp

/-- C9 (defect of `Geom3d.Apply`, the one of C8): the claim asks that the near-plane corners
`[l, b, -n, 1]` and `[r, t, -n, 1]`, sent through `Frustum3d(l, r, b, t, n, f)` by `Apply`
and divided by the fourth component, land on `-1` and `1`.  `Frustum3d` returns the transposed
literal, laid out for row vectors, but `Apply` multiplies by a column vector.  At
`l, r, b, t, n, f = -1, 1, -1, 1, 1, 2` the corner `[-1, -1, -1, 1]` is sent to
`[-1, -1, 2, 4]` and `[1, 1, -1, 1]` to `[1, 1, 2, 4]`: after the divide `x` and `y` are
`-1/4` and `1/4`, not `-1` and `1`. -/
theorem C9_Frustum3d_Apply_near_corners :
    (Frustum3d (-1 : ℝ) 1 (-1) 1 1 2).bind (fun m => Geom3d.Apply m ⟨-1, -1, -1, 1⟩)
      = some ⟨-1, -1, 2, 4⟩
    ∧ (Frustum3d (-1 : ℝ) 1 (-1) 1 1 2).bind (fun m => Geom3d.Apply m ⟨1, 1, -1, 1⟩)
      = some ⟨1, 1, 2, 4⟩
    ∧ ((Frustum3d (-1 : ℝ) 1 (-1) 1 1 2).bind (fun m => Geom3d.Apply m ⟨-1, -1, -1, 1⟩)).map
        (fun v => (v.e0 / v.e3, v.e1 / v.e3)) ≠ some (-1, -1)
    ∧ ((Frustum3d (-1 : ℝ) 1 (-1) 1 1 2).bind (fun m => Geom3d.Apply m ⟨1, 1, -1, 1⟩)).map
        (fun v => (v.e0 / v.e3, v.e1 / v.e3)) ≠ some (1, 1) := by
  have hv : (Frustum3d (-1 : ℝ) 1 (-1) 1 1 2).bind (fun m => Geom3d.Apply m ⟨-1, -1, -1, 1⟩)
      = some ⟨-1, -1, 2, 4⟩ := by
    rw [Frustum3d_eval, Option.some_bind, Geom3d.Apply3d_eval]
    norm_num
  have hu : (Frustum3d (-1 : ℝ) 1 (-1) 1 1 2).bind (fun m => Geom3d.Apply m ⟨1, 1, -1, 1⟩)
      = some ⟨1, 1, 2, 4⟩ := by
    rw [Frustum3d_eval, Option.some_bind, Geom3d.Apply3d_eval]
    norm_num
  refine ⟨hv, hu, ?_, ?_⟩
  · rw [hv]
    norm_num
  · rw [hu]
    norm_num

/-- C10, as stated, fails: at `fov = π/2` (so `tan(fov/2) = 1`), `aspect = 1`, `near = 1`,
`far = 2`, the frustum `Frustum3d(-1, 1, -1, 1, 1, 2)` has `-3` and `-4` in the entries
`[2][2]` and `[3][2]`, where `Perspective3d` has `-2` and `-2`. -/
theorem C10_counterexample :
    0 < Real.tan (Real.pi / 2 / 2) ∧ (0 : ℝ) < 1 ∧ (0 : ℝ) < 1 ∧ (1 : ℝ) < 2
    ∧ Frustum3d (-(1 * Real.tan (Real.pi / 2 / 2) * 1)) (1 * Real.tan (Real.pi / 2 / 2) * 1)
        (-(1 * Real.tan (Real.pi / 2 / 2))) (1 * Real.tan (Real.pi / 2 / 2)) 1 2
      ≠ some (Perspective3d Real.tan (Real.pi / 2) 1 1 2) := by
  have h4 : Real.pi / 2 / 2 = Real.pi / 4 := by ring
  have ht : Real.tan (Real.pi / 2 / 2) = 1 := by rw [h4, Real.tan_pi_div_four]
  refine ⟨by rw [ht]; norm_num, by norm_num, by norm_num, by norm_num, ?_⟩
  rw [Frustum3d_eval, ht]
  intro h
  have h22 := congrArg (fun m : Geom3d ℝ => m.e2.e2) (Option.some.inj h)
  simp only [Perspective3d] at h22
  norm_num at h22

/-- C10 (amended): for all `fov` with `tan(fov/2) > 0`, `aspect > 0` and `0 < near < far`,
with `top = near*tan(fov/2)` and `right = top*aspect`, `Frustum3d(-right, right, -top, top,
near, far)` returns a matrix `F` that agrees with `Perspective3d(fov, aspect, near, far)` in
every entry except the two depth entries `[2][2]` and `[3][2]`: there `Perspective3d` has
`far/(near-far)` and `-far*near/(far-near)`, `Frustum3d` has `-(far+near)/(far-near)` and
`-2*far*near/(far-near)`, and the two differ. -/
theorem C10_Perspective3d_Frustum3d_agree_off_depth (fov aspect near far : ℝ)
    (htan : 0 < Real.tan (fov / 2)) (haspect : 0 < aspect) (hnear : 0 < near)
    (hfar : near < far) :
    ∃ F : Geom3d ℝ,
      Frustum3d (-(near * Real.tan (fov / 2) * aspect)) (near * Real.tan (fov / 2) * aspect)
        (-(near * Real.tan (fov / 2))) (near * Real.tan (fov / 2)) near far = some F
      ∧ F.e0 = (Perspective3d Real.tan fov aspect near far).e0
      ∧ F.e1 = (Perspective3d Real.tan fov aspect near far).e1
      ∧ F.e2.e0 = (Perspective3d Real.tan fov aspect near far).e2.e0
      ∧ F.e2.e1 = (Perspective3d Real.tan fov aspect near far).e2.e1
      ∧ F.e2.e3 = (Perspective3d Real.tan fov aspect near far).e2.e3
      ∧ F.e3.e0 = (Perspective3d Real.tan fov aspect near far).e3.e0
      ∧ F.e3.e1 = (Perspective3d Real.tan fov aspect near far).e3.e1
      ∧ F.e3.e3 = (Perspective3d Real.tan fov aspect near far).e3.e3
      ∧ (Perspective3d Real.tan fov aspect near far).e2.e2 = far / (near - far)
      ∧ F.e2.e2 = -(far + near) / (far - near)
      ∧ (Perspective3d Real.tan fov aspect near far).e3.e2 = -far * near / (far - near)
      ∧ F.e3.e2 = -2 * far * near / (far - near)
      ∧ F.e2.e2 ≠ (Perspective3d Real.tan fov aspect near far).e2.e2
      ∧ F.e3.e2 ≠ (Perspective3d Real.tan fov aspect near far).e3.e2 := by
  have ht : Real.tan (fov / 2) ≠ 0 := ne_of_gt htan
  have ha : aspect ≠ 0 := ne_of_gt haspect
  have hn : near ≠ 0 := ne_of_gt hnear
  have hf : far ≠ 0 := ne_of_gt (lt_trans hnear hfar)
  have hfn : far - near ≠ 0 := sub_ne_zero.mpr (ne_of_gt hfar)
  have hnf : near - far ≠ 0 := sub_ne_zero.mpr (ne_of_lt hfar)
  refine ⟨_, Frustum3d_eval _ _ _ _ _ _, ?_, ?_, ?_, ?_, rfl, rfl, rfl, rfl, rfl, rfl, rfl, rfl,
    ?_, ?_⟩
  · simp only [Perspective3d, Arr4.mk.injEq, and_true]
    field_simp
    ring
  · simp only [Perspective3d, Arr4.mk.injEq, and_true, true_and]
    field_simp
    ring
  · simp [Perspective3d]
  · simp [Perspective3d]
  · simp only [Perspective3d]
    intro h
    field_simp at h
    have h0 : near * (near - far) = 0 := by linear_combination -h
    rcases mul_eq_zero.mp h0 with h1 | h1
    · exact hn h1
    · exact hnf h1
  · simp only [Perspective3d]
    intro h
    field_simp at h
    rcases h with h1 | h1
    · exact hn h1
    · exact hfn h1

/-- Witness of C10 (amended) at `fov = π/2`, `aspect = 1`, `near = 1`, `far = 2`. -/
theorem C10_Perspective3d_Frustum3d_agree_off_depth_witness :
    0 < Real.tan (Real.pi / 2 / 2) ∧ (0 : ℝ) < 1 ∧ (1 : ℝ) < 2
    ∧ ∃ F : Geom3d ℝ,
      Frustum3d (-(1 * Real.tan (Real.pi / 2 / 2) * 1)) (1 * Real.tan (Real.pi / 2 / 2) * 1)
        (-(1 * Real.tan (Real.pi / 2 / 2))) (1 * Real.tan (Real.pi / 2 / 2)) 1 2 = some F
      ∧ F.e0 = (Perspective3d Real.tan (Real.pi / 2) 1 1 2).e0
      ∧ F.e1 = (Perspective3d Real.tan (Real.pi / 2) 1 1 2).e1
      ∧ F.e2.e0 = (Perspective3d Real.tan (Real.pi / 2) 1 1 2).e2.e0
      ∧ F.e2.e1 = (Perspective3d Real.tan (Real.pi / 2) 1 1 2).e2.e1
      ∧ F.e2.e3 = (Perspective3d Real.tan (Real.pi / 2) 1 1 2).e2.e3
      ∧ F.e3.e0 = (Perspective3d Real.tan (Real.pi / 2) 1 1 2).e3.e0
      ∧ F.e3.e1 = (Perspective3d Real.tan (Real.pi / 2) 1 1 2).e3.e1
      ∧ F.e3.e3 = (Perspective3d Real.tan (Real.pi / 2) 1 1 2).e3.e3
      ∧ (Perspective3d Real.tan (Real.pi / 2) 1 1 2).e2.e2 = 2 / (1 - 2)
      ∧ F.e2.e2 = -(2 + 1) / (2 - 1)
      ∧ (Perspective3d Real.tan (Real.pi / 2) 1 1 2).e3.e2 = -2 * 1 / (2 - 1)
      ∧ F.e3.e2 = -2 * 2 * 1 / (2 - 1)
      ∧ F.e2.e2 ≠ (Perspective3d Real.tan (Real.pi / 2) 1 1 2).e2.e2
      ∧ F.e3.e2 ≠ (Perspective3d Real.tan (Real.pi / 2) 1 1 2).e3.e2 :=
  have ht : Real.tan (Real.pi / 2 / 2) = 1 := by
    rw [show Real.pi / 2 / 2 = Real.pi / 4 by ring, Real.tan_pi_div_four]
  have hpos : 0 < Real.tan (Real.pi / 2 / 2) := by rw [ht]; norm_num
  ⟨hpos, by norm_num, by norm_num,
   C10_Perspective3d_Frustum3d_agree_off_depth (Real.pi / 2) 1 1 2 hpos (by norm_num)
     (by norm_num) (by norm_num)⟩

/-- C11 (defect of `Geom.Mul`, the one of C1): the claim asks that `To3d` carry the 2D
product to the 4x4 product, `a.Mul(b).To3d() = a.To3d().Mul(b.To3d())`.  The 4x4 product of the
embedded matrices has the translation row `a[2]*L(b) + b[2]`; the 2D `Mul` leaves `b[2]` out.
At `a = rows (1,0),(0,1),(0,0)` and `b = rows (1,0),(0,1),(5,-5)` the left side is the
embedded identity and the right side the embedded `b`. -/
theorem C11_To3d_of_Mul_loses_translation :
    (∀ a b : Geom ℝ, Geom3d.Mul (Geom.To3d a) (Geom.To3d b) = some (Geom.To3d (Geom.rows
        (a.e0.e0 * b.e0.e0 + a.e0.e1 * b.e1.e0) (a.e0.e0 * b.e0.e1 + a.e0.e1 * b.e1.e1)
        (a.e1.e0 * b.e0.e0 + a.e1.e1 * b.e1.e0) (a.e1.e0 * b.e0.e1 + a.e1.e1 * b.e1.e1)
        (a.e2.e0 * b.e0.e0 + a.e2.e1 * b.e1.e0 + b.e2.e0)
        (a.e2.e0 * b.e0.e1 + a.e2.e1 * b.e1.e1 + b.e2.e1))))
    ∧ (Geom.Mul (Geom.rows (1 : ℝ) 0 0 1 0 0) (Geom.rows 1 0 0 1 5 (-5))).map Geom.To3d
        = some (Geom.To3d (Geom.rows 1 0 0 1 0 0))
    ∧ Geom3d.Mul (Geom.To3d (Geom.rows (1 : ℝ) 0 0 1 0 0)) (Geom.To3d (Geom.rows 1 0 0 1 5 (-5)))
        = some (Geom.To3d (Geom.rows 1 0 0 1 5 (-5)))
    ∧ (Geom.Mul (Geom.rows (1 : ℝ) 0 0 1 0 0) (Geom.rows 1 0 0 1 5 (-5))).map Geom.To3d
        ≠ Geom3d.Mul (Geom.To3d (Geom.rows (1 : ℝ) 0 0 1 0 0))
            (Geom.To3d (Geom.rows 1 0 0 1 5 (-5))) := by
  have h2 : (Geom.Mul (Geom.rows (1 : ℝ) 0 0 1 0 0) (Geom.rows 1 0 0 1 5 (-5))).map Geom.To3d
      = some (Geom.To3d (Geom.rows 1 0 0 1 0 0)) := by
    rw [Geom.Mul_eval]
    simp [Geom.rows]
  have h3 : Geom3d.Mul (Geom.To3d (Geom.rows (1 : ℝ) 0 0 1 0 0))
      (Geom.To3d (Geom.rows 1 0 0 1 5 (-5))) = some (Geom.To3d (Geom.rows 1 0 0 1 5 (-5))) := by
    rw [Geom3d.Mul3d_eval]
    simp [Geom.rows, Geom.To3d]
  refine ⟨?_, h2, h3, ?_⟩
  · intro a b
    rw [Geom3d.Mul3d_eval]
    simp [Geom.rows, Geom.To3d]
  · rw [h2, h3]
    simp [Geom.rows, Geom.To3d]

/-- C12: for all real angles `y`, `p`, `r`, the product
`Rotate3d(y, 0, 0).Mul(Rotate3d(0, p, 0)).Mul(Rotate3d(0, 0, r))` is returned and equals
`Rotate3d(y, p, r)`, and `Identity3d()` is returned and equals `Rotate3d(0, 0, 0)`. -/
theorem C12_Rotate3d_is_yaw_pitch_roll_product (y p r : ℝ) :
    (Geom3d.Mul (Rotate3d Real.sin Real.cos y 0 0) (Rotate3d Real.sin Real.cos 0 p 0)).bind
        (fun m => Geom3d.Mul m (Rotate3d Real.sin Real.cos 0 0 r))
      = some (Rotate3d Real.sin Real.cos y p r)
    ∧ (Identity3d : Option (Geom3d ℝ)) = some (Rotate3d Real.sin Real.cos 0 0 0) := by
  constructor
  · rw [Geom3d.Mul3d_eval, Option.some_bind, Geom3d.Mul3d_eval]
    simp [Rotate3d, Geom3d.zero]
    refine ⟨?_, ?_⟩ <;> ring
  · rw [Identity3d_eval]
    simp [Rotate3d, Geom3d.zero]

/-- C13: for all reals `a, b, c, d, e, f`, `Translate3d(a, b, c).Mul(Translate3d(d, e, f))`
is returned and equals `Translate3d(a+d, b+e, c+f)`, the matrix with rows `(1,0,0,0)`,
`(0,1,0,0)`, `(0,0,1,0)`, `(a+d, b+e, c+f, 1)`, and so does the product in the other order. -/
theorem C13_Translate3d_Mul_adds (a b c d e f : ℝ) :
    (Translate3d a b c).bind (fun A => (Translate3d d e f).bind (fun B => Geom3d.Mul A B))
      = Translate3d (a + d) (b + e) (c + f)
    ∧ (Translate3d d e f).bind (fun B => (Translate3d a b c).bind (fun A => Geom3d.Mul B A))
      = Translate3d (a + d) (b + e) (c + f)
    ∧ Translate3d (a + d) (b + e) (c + f)
      = some ⟨⟨1, 0, 0, 0⟩, ⟨0, 1, 0, 0⟩, ⟨0, 0, 1, 0⟩, ⟨a + d, b + e, c + f, 1⟩⟩ := by
  refine ⟨?_, ?_, Translate3d_eval _ _ _⟩
  · rw [Translate3d_eval, Translate3d_eval, Translate3d_eval, Option.some_bind,
      Option.some_bind, Geom3d.Mul3d_eval]
    simp
  · rw [Translate3d_eval, Translate3d_eval, Translate3d_eval, Option.some_bind,
      Option.some_bind, Geom3d.Mul3d_eval]
    simp [add_comm]

/-- C14: `Geom.Mul` is associative: for all `a`, `b`, `c`, both `a.Mul(b).Mul(c)` and
`a.Mul(b.Mul(c))` are returned and they are equal. -/
theorem C14_Mul_assoc (a b c : Geom ℝ) :
    (Geom.Mul a b).bind (fun ab => Geom.Mul ab c)
      = (Geom.Mul b c).bind (fun bc => Geom.Mul a bc)
    ∧ ((Geom.Mul a b).bind (fun ab => Geom.Mul ab c)).isSome = true := by
  constructor
  · rw [Geom.Mul_eval a b, Geom.Mul_eval b c, Option.some_bind, Option.some_bind,
      Geom.Mul_eval, Geom.Mul_eval]
    simp only [Geom.rows, Option.some.injEq, Arr3.mk.injEq, Arr2.mk.injEq]
    refine ⟨⟨?_, ?_⟩, ⟨?_, ?_⟩, ⟨?_, ?_⟩⟩ <;> ring
  · rw [Geom.Mul_eval a b, Option.some_bind, Geom.Mul_eval]
    rfl

/-- C15: for every real angle `t`, `Rotate2d(t).Mul(Rotate2d(-t))` is returned and is the
identity affine matrix with rows `(1,0)`, `(0,1)`, `(0,0)`, and `Rotate2d(0)` is that same
matrix. -/
theorem C15_Rotate2d_inverse_angle (t : ℝ) :
    Geom.Mul (Rotate2d Real.sin Real.cos t) (Rotate2d Real.sin Real.cos (-t))
      = some (Geom.rows 1 0 0 1 0 0)
    ∧ Rotate2d Real.sin Real.cos 0 = Geom.rows 1 0 0 1 0 0 := by
  constructor
  · rw [Geom.Mul_eval]
    simp only [Rotate2d, Geom.zero, Geom.rows, Real.sin_neg, Real.cos_neg, Option.some.injEq,
      Arr3.mk.injEq, Arr2.mk.injEq]
    have h := Real.sin_sq_add_cos_sq t
    refine ⟨⟨?_, ?_⟩, ⟨?_, ?_⟩, ⟨?_, ?_⟩⟩ <;> nlinarith [h]
  · simp [Rotate2d, Geom.zero, Geom.rows]

/-- C16, as stated, fails: `Ortho3d(1, -2, 2, 1, 3)` has `width <= 0` and no zero divisor,
and it returns the matrix with rows `(-1,0,0,0)`, `(0,1,0,0)`, `(0,0,-1,0)`, `(0,0,-2,1)`
instead of failing. -/
theorem C16_counterexample :
    (-2 : ℝ) ≤ 0 ∧ (1 : ℝ) * 2 ≠ 0 ∧ (-2 : ℝ) ≠ 0 ∧ (2 : ℝ) ≠ 0 ∧ (3 : ℝ) - 1 ≠ 0
    ∧ Ortho3d (1 : ℝ) (-2) 2 1 3
      = ⟨⟨-1, 0, 0, 0⟩, ⟨0, 1, 0, 0⟩, ⟨0, 0, -1, 0⟩, ⟨0, 0, -2, 1⟩⟩ := by
  refine ⟨by norm_num, by norm_num, by norm_num, by norm_num, by norm_num, ?_⟩
  simp only [Ortho3d]
  norm_num

/-- C16 (amended): no failure is signalled on a degenerate input.
(1) `Frustum3d` returns a matrix for every input, the ones with `near == far`,
`right == left` or `top == bottom` included, and this for every scalar type with the
operations of the literal (`float64` with its own division included): no divisor is guarded
and the transpose loop stays in range whatever the sixteen entries are.
(2) `Ortho3d` with a negative `width` or `height` returns a matrix like with positive ones:
when `zoom`, `width`, `height` and `far - near` are not zero, its x scale is `2*zoom/width`,
its z scale `-2/(far-near)`, its z offset `-(far+near)/(far-near)`, its corner entry `1`, and
the other entries off `[1][1]` are zero.
Which entries a zero divisor gives is not stated, and neither is the y scale `[1][1]`. -/
theorem C16_no_failure_on_degenerate_input (zoom width height near far : ℝ)
    (hzoom : zoom ≠ 0) (hwidth : width ≠ 0) (hheight : height ≠ 0) (hnear : near ≠ far) :
    (∀ (β : Type) [Zero β] [One β] [OfNat β 2] [Add β] [Sub β] [Mul β] [Div β] [Neg β]
        (l r b t n f : β),
        (∃ m : Geom3d β, Frustum3d l r b t n f = some m) ∧ Frustum3d l r b t n f ≠ none)
    ∧ (Ortho3d zoom width height near far).e0 = ⟨2 * zoom / width, 0, 0, 0⟩
    ∧ (Ortho3d zoom width height near far).e1.e0 = 0
    ∧ (Ortho3d zoom width height near far).e1.e2 = 0
    ∧ (Ortho3d zoom width height near far).e1.e3 = 0
    ∧ (Ortho3d zoom width height near far).e2 = ⟨0, 0, -2 / (far - near), 0⟩
    ∧ (Ortho3d zoom width height near far).e3 = ⟨0, 0, -(far + near) / (far - near), 1⟩ := by
  have _hz : zoom * 2 ≠ 0 := mul_ne_zero hzoom two_ne_zero
  have _hh : height / (zoom * 2) ≠ 0 := div_ne_zero hheight _hz
  have _hfn : far - near ≠ 0 := sub_ne_zero.mpr (Ne.symm hnear)
  refine ⟨?_, ?_, rfl, rfl, rfl, rfl, rfl⟩
  · intro β _ _ _ _ _ _ _ _ l r b t n f
    have h : ∃ m : Geom3d β, Frustum3d l r b t n f = some m :=
      ⟨_, Geom3d.Transpose3d_eval _⟩
    refine ⟨h, ?_⟩
    obtain ⟨m, hm⟩ := h
    rw [hm]
    exact Option.some_ne_none m
  · simp only [Ortho3d, Arr4.mk.injEq, and_true]
    field_simp
    ring

/-- Witness of C16 (amended) at `Ortho3d(1, -2, 2, 1, 3)`, whose `width` is negative. -/
theorem C16_no_failure_on_degenerate_input_witness :
    (-2 : ℝ) ≤ 0
    ∧ (∀ (β : Type) [Zero β] [One β] [OfNat β 2] [Add β] [Sub β] [Mul β] [Div β] [Neg β]
        (l r b t n f : β),
        (∃ m : Geom3d β, Frustum3d l r b t n f = some m) ∧ Frustum3d l r b t n f ≠ none)
    ∧ (Ortho3d (1 : ℝ) (-2) 2 1 3).e0 = ⟨2 * 1 / (-2), 0, 0, 0⟩
    ∧ (Ortho3d (1 : ℝ) (-2) 2 1 3).e1.e0 = 0
    ∧ (Ortho3d (1 : ℝ) (-2) 2 1 3).e1.e2 = 0
    ∧ (Ortho3d (1 : ℝ) (-2) 2 1 3).e1.e3 = 0
    ∧ (Ortho3d (1 : ℝ) (-2) 2 1 3).e2 = ⟨0, 0, -2 / (3 - 1), 0⟩
    ∧ (Ortho3d (1 : ℝ) (-2) 2 1 3).e3 = ⟨0, 0, -(3 + 1) / (3 - 1), 1⟩ :=
  ⟨by norm_num,
   C16_no_failure_on_degenerate_input 1 (-2) 2 1 3 (by norm_num) (by norm_num) (by norm_num)
     (by norm_num)⟩

/-- C17 (defect of `Rectangle.Distance`): the claim, like the comment of the function, asks
for a signed distance, negative strictly inside the rectangle and zero exactly on its
boundary.  The code clamps both components of `d` at zero and returns a square root, so the
result is never negative; at the point `(1, 1)`, strictly inside `Rect(0, 0, 2, 2)`, it is
`0`, the value reserved for the boundary. -/
theorem C17_Distance_is_never_negative :
    (∀ (r : Rectangle ℝ) (p : Point ℝ), 0 ≤ Rectangle.Distance Real.sqrt r p)
    ∧ ((0 : ℝ) < 1 ∧ (1 : ℝ) < 2)
    ∧ Rectangle.Distance Real.sqrt (Rect 0 0 2 2) (Pt 1 1) = 0
    ∧ ¬ Rectangle.Distance Real.sqrt (Rect 0 0 2 2) (Pt 1 1) < 0 := by
  have h0 : Rectangle.Distance Real.sqrt (Rect 0 0 2 2) (Pt 1 1) = 0 := by
    simp only [Rectangle.Distance, Rectangle.Sub, Rect, Pt, Point.Length, Point.Mul]
    norm_num
  refine ⟨?_, ⟨by norm_num, by norm_num⟩, h0, ?_⟩
  · intro r p
    exact Real.sqrt_nonneg _
  · rw [h0]
    exact lt_irrefl 0

/-- C18: for all rectangles `r`, `s` and every point `p`, `p.In(r.Intersect(s))` holds if and
only if `p.In(r)` and `p.In(s)`; and when `r.Overlaps(s)` is false, `r.Intersect(s)` is the
zero `Rectangle`. -/
theorem C18_Intersect_is_set_intersection (r s : Rectangle ℝ) (p : Point ℝ) :
    (Point.In p (Rectangle.Intersect r s) = true ↔ (Point.In p r = true ∧ Point.In p s = true))
    ∧ (Rectangle.Overlaps r s = false → Rectangle.Intersect r s = Rectangle.zero) := by
  rw [Rectangle.Intersect_eval]
  rcases r with ⟨⟨a, b⟩, ⟨c, d⟩⟩
  rcases s with ⟨⟨a', b'⟩, ⟨c', d'⟩⟩
  rcases p with ⟨x, y⟩
  constructor
  · by_cases hE : Rectangle.Empty (Rect (max a a') (max b b') (min c c') (min d d')) = true
    · rw [if_pos hE]
      simp only [Rectangle.Empty, Rect, Pt, Point.In, Rectangle.zero, Bool.or_eq_true,
        Bool.and_eq_true, decide_eq_true_eq, ge_iff_le, min_le_iff, le_max_iff] at hE ⊢
      constructor
      · rintro ⟨⟨⟨h1, h2⟩, _⟩, _⟩
        linarith
      · rintro ⟨⟨⟨⟨h1, h2⟩, h3⟩, h4⟩, ⟨⟨h5, h6⟩, h7⟩, h8⟩
        rcases hE with (hE | hE) | (hE | hE) <;> rcases hE with hE | hE <;> linarith
    · rw [if_neg hE]
      simp only [Rect, Pt, Point.In, Bool.and_eq_true, decide_eq_true_eq, max_le_iff,
        lt_min_iff]
      tauto
  · intro hO
    have hE : Rectangle.Empty (Rect (max a a') (max b b') (min c c') (min d d')) = true := by
      by_contra hE
      apply Bool.eq_false_iff.mp hO
      simp only [Rectangle.Empty, Rect, Pt, Rectangle.Overlaps, Bool.or_eq_true,
        Bool.and_eq_true, decide_eq_true_eq, ge_iff_le, min_le_iff, le_max_iff, not_or, not_le,
        Bool.not_eq_true', Bool.or_eq_false_iff, decide_eq_false_iff_not, Bool.not_eq_eq_eq_not,
        Bool.not_true] at hE ⊢
      tauto
    rw [if_pos hE]

/-- Witness of C18 at the disjoint rectangles `Rect(0, 0, 1, 1)` and `Rect(2, 2, 3, 3)` and
the point `(0, 0)`. -/
theorem C18_Intersect_is_set_intersection_witness :
    Rectangle.Overlaps (Rect (0 : ℝ) 0 1 1) (Rect 2 2 3 3) = false
    ∧ Rectangle.Intersect (Rect (0 : ℝ) 0 1 1) (Rect 2 2 3 3) = Rectangle.zero
    ∧ (Point.In (Pt 0 0) (Rectangle.Intersect (Rect (0 : ℝ) 0 1 1) (Rect 2 2 3 3)) = true
        ↔ (Point.In (Pt 0 0) (Rect (0 : ℝ) 0 1 1) = true
          ∧ Point.In (Pt 0 0) (Rect (2 : ℝ) 2 3 3) = true)) :=
  have h : Rectangle.Overlaps (Rect (0 : ℝ) 0 1 1) (Rect 2 2 3 3) = false := by
    simp only [Rectangle.Overlaps, Rectangle.Empty, Rect, Pt]
    norm_num
  ⟨h,
   (C18_Intersect_is_set_intersection (Rect 0 0 1 1) (Rect 2 2 3 3) (Pt 0 0)).2 h,
   (C18_Intersect_is_set_intersection (Rect 0 0 1 1) (Rect 2 2 3 3) (Pt 0 0)).1⟩

/-- C19 (defect of `Geom.Transpose`): the claim asks that `Transpose` return a matrix `b`
with `b[j][i] = g[i][j]`.  The loop runs `i` over the 3 rows of `g` and writes `b[j][i]`; a
row of `b` has 2 entries, so at `i = 2` the index is out of range: `Transpose` fails on every
matrix, for instance on the identity rows `(1,0)`, `(0,1)`, `(0,0)`. -/
theorem C19_Transpose_index_out_of_range :
    (∀ g : Geom ℝ, Geom.Transpose g = none)
    ∧ Geom.Transpose (Geom.rows (1 : ℝ) 0 0 1 0 0) = none :=
  ⟨fun _ => rfl, rfl⟩

/-- C20 (defect of `Geom3d.Rotate`): the claim asks that `g.Rotate(pitch, yaw, roll)` be
`g.Mul(Rotate3d(yaw, pitch, roll))`, each angle in its own role.  The method passes its
arguments on in the order `(pitch, yaw, roll)` to `Rotate3d(yaw, pitch, roll)`, so its `pitch`
is used as yaw and its `yaw` as pitch.  On the identity matrix with `pitch = π/2` and
`yaw = roll = 0` the code returns the yaw rotation by `π/2`, not the pitch rotation. -/
theorem C20_Rotate_swaps_pitch_and_yaw :
    (∀ (g : Geom3d ℝ) (pitch yaw roll : ℝ),
      Geom3d.Rotate Real.sin Real.cos g pitch yaw roll
        = Geom3d.Mul g (Rotate3d Real.sin Real.cos pitch yaw roll))
    ∧ Geom3d.Rotate Real.sin Real.cos
        (⟨⟨1, 0, 0, 0⟩, ⟨0, 1, 0, 0⟩, ⟨0, 0, 1, 0⟩, ⟨0, 0, 0, 1⟩⟩ : Geom3d ℝ) (Real.pi / 2) 0 0
      = some ⟨⟨1, 0, 0, 0⟩, ⟨0, 0, 1, 0⟩, ⟨0, -1, 0, 0⟩, ⟨0, 0, 0, 1⟩⟩
    ∧ Geom3d.Mul (⟨⟨1, 0, 0, 0⟩, ⟨0, 1, 0, 0⟩, ⟨0, 0, 1, 0⟩, ⟨0, 0, 0, 1⟩⟩ : Geom3d ℝ)
        (Rotate3d Real.sin Real.cos 0 (Real.pi / 2) 0)
      = some ⟨⟨0, 0, -1, 0⟩, ⟨0, 1, 0, 0⟩, ⟨1, 0, 0, 0⟩, ⟨0, 0, 0, 1⟩⟩
    ∧ Geom3d.Rotate Real.sin Real.cos
        (⟨⟨1, 0, 0, 0⟩, ⟨0, 1, 0, 0⟩, ⟨0, 0, 1, 0⟩, ⟨0, 0, 0, 1⟩⟩ : Geom3d ℝ) (Real.pi / 2) 0 0
      ≠ Geom3d.Mul (⟨⟨1, 0, 0, 0⟩, ⟨0, 1, 0, 0⟩, ⟨0, 0, 1, 0⟩, ⟨0, 0, 0, 1⟩⟩ : Geom3d ℝ)
        (Rotate3d Real.sin Real.cos 0 (Real.pi / 2) 0) := by
  have h1 : Geom3d.Rotate Real.sin Real.cos
      (⟨⟨1, 0, 0, 0⟩, ⟨0, 1, 0, 0⟩, ⟨0, 0, 1, 0⟩, ⟨0, 0, 0, 1⟩⟩ : Geom3d ℝ) (Real.pi / 2) 0 0
      = some ⟨⟨1, 0, 0, 0⟩, ⟨0, 0, 1, 0⟩, ⟨0, -1, 0, 0⟩, ⟨0, 0, 0, 1⟩⟩ := by
    rw [Geom3d.Rotate, Geom3d.Mul3d_eval]
    simp [Rotate3d, Geom3d.zero]
  have h2 : Geom3d.Mul (⟨⟨1, 0, 0, 0⟩, ⟨0, 1, 0, 0⟩, ⟨0, 0, 1, 0⟩, ⟨0, 0, 0, 1⟩⟩ : Geom3d ℝ)
      (Rotate3d Real.sin Real.cos 0 (Real.pi / 2) 0)
      = some ⟨⟨0, 0, -1, 0⟩, ⟨0, 1, 0, 0⟩, ⟨1, 0, 0, 0⟩, ⟨0, 0, 0, 1⟩⟩ := by
    rw [Geom3d.Mul3d_eval]
    simp [Rotate3d, Geom3d.zero]
  refine ⟨fun _ _ _ _ => rfl, h1, h2, ?_⟩
  rw [h1, h2]
  simp

end GeomModel
